import Mathlib

/-!
Verification of the Markdown-to-HTML render pipeline of
`src/helpers.ts` (function `getHtmlForWebview` and its custom
code-block renderer).

The pipeline's own code (renderer branching, sanitizer configuration,
emoji-postprocessor configuration, asset-base resolution, document
assembly) is embedded as executable Lean definitions.  The third-party
collaborators that the pipeline drives (the `marked` conversion engine,
the `highlight.js` registry and highlighter, `DOMPurify`, `twemoji`)
are not part of the repository; they enter the model as explicit
function parameters collected in the `Libs` structure, and a
possibly-throwing call is a function into `Except`.

All HTML template text below is transcribed verbatim from the template
literals of `src/helpers.ts` (including their idiosyncratic spacing),
split exactly at the interpolation holes of the source.
-/

def mermaidPre : String :=
  "\n                <div class=\"mermaid-container\">\n                    <pre class=\"mermaid\">"

def mermaidPost : String :=
  "</pre>\n                </div>\n            "

def cbA : String :=
  "\n                <div class=\"code-block\">\n                    <div class=\"code-header\">\n                        <span class=\"language\">"

def cbB : String :=
  "</span>\n                        <button class=\"copy-button\" onclick=\"copyToClipboard(this)\" title=\"Copy to clipboard\">\n                            <svg width=\"16\" height=\"16\" viewBox=\"0 0 24 24\" fill=\"none\" stroke=\"currentColor\" stroke-width=\"2\">\n                                <rect x=\"9\" y=\"9\" width=\"13\" height=\"13\" rx=\"2\" ry=\"2\"></rect>\n                                <path d=\"M5 15H4a2 2 0 0 1-2-2V4a2 2 0 0 1 2-2h9a2 2 0 0 1 2 2v1\"></path>\n                            </svg>\n                        </button>\n                    </div>\n                    <pre><code class=\"hljs language-"

def cbC : String :=
  "\">"

def cbD : String :=
  "</code></pre>\n                </div>\n            "

def fbA : String :=
  "\n                <div class=\"code-block\">\n                    <div class=\"code-header\">\n                        <span class=\"language\">"

def fbB : String :=
  "</span>\n                        <button class=\"copy-button\" onclick=\"copyToClipboard(this)\" title=\"Copy to clipboard\">\n                            <svg width=\"16\" height=\"16\" viewBox=\"0 0 24 24\" fill=\"none\" stroke=\"currentColor\" stroke-width=\"2\">\n                                <rect x=\"9\" y=\"9\" width=\"13\" height=\"13\" rx=\"2\" ry=\"2\"></rect>\n                                <path d=\"M5 15H4a2 2 0 0 1-2-2V4a2 2 0 0 1 2-2h9a2 2 0 0 1 2 2v1\"></path>\n                            </svg>\n                        </button>\n                    </div>\n                    <pre><code>"

def fbC : String :=
  "</code></pre>\n                </div>\n            "

def shellA : String :=
  "<! DOCTYPE html>\n<html lang=\"en\">\n<head>\n    <meta charset=\"UTF-8\">\n    <meta name=\"viewport\" content=\"width=device-width, initial-scale=1.0\">\n    <title>Markdown:  Rich Preview</title>\n    <link rel=\"stylesheet\" href=\""

def shellB : String :=
  "\">\n    <link rel=\"stylesheet\" href=\""

def shellC : String :=
  "\">\n    \n    <!-- اضافه کردن Mermaid -->\n    "

def mermaidBootstrapScript : String :=
  "<script type=\"module\">\n        import mermaid from \x27https://cdn.jsdelivr.net/npm/mermaid@10/dist/mermaid.esm.min.mjs\x27;\n        \n        mermaid.initialize(\x7b \n            startOnLoad: true,\n            theme: \x27default\x27,\n            securityLevel: \x27loose\x27,\n            fontFamily: \x27-apple-system, BlinkMacSystemFont, \"Segoe UI\", Roboto, sans-serif\x27\n        \x7d);\n        \n        // برای PDF export، صبر کنید تا همه نمودارها رندر شوند\n        window.addEventListener(\x27load\x27, async () => \x7b\n            try \x7b\n                await mermaid.run(\x7b\n                    querySelector: \x27.mermaid\x27\n                \x7d);\n                // سیگنال به Puppeteer که رندر تمام شده\n                window.mermaidReady = true;\n            \x7d catch (error) \x7b\n                console.error(\x27Mermaid rendering error:\x27, error);\n                window.mermaidReady = true;\n            \x7d\n        \x7d);\n    </script>"

def shellD : String :=
  "\n    \n    <script src=\""

def shellE : String :=
  "\"></script>\n    <script>\n        // Initialize highlight.js\n        document.addEventListener(\x27DOMContentLoaded\x27, () => \x7b\n            document.querySelectorAll(\x27pre code\x27).forEach((block) => \x7b\n                if (typeof hljs !== \x27undefined\x27 && hljs.highlightElement) \x7b\n                    hljs. highlightElement(block);\n                \x7d\n            \x7d);\n        \x7d);\n\n        // Copy to clipboard function\n        function copyToClipboard(button) \x7b\n            const codeBlock = button.closest(\x27.code-block\x27);\n            const code = codeBlock.querySelector(\x27code\x27).textContent;\n            navigator.clipboard.writeText(code).then(() => \x7b\n                const originalText = button.textContent;\n                button.textContent = \x27Copied!\x27;\n                button.style.backgroundColor = \x27#4CAF50\x27;\n                button.style.color = \x27white\x27;\n                setTimeout(() => \x7b\n                    button.textContent = originalText;\n                    button.style.backgroundColor = \x27\x27;\n                    button.style.color = \x27\x27;\n                \x7d, 2000);\n            \x7d).catch(err => \x7b\n                console.error(\x27Failed to copy:  \x27, err);\n            \x7d);\n        \x7d\n    </script>\n    <style>\n        "

def printMediaCss : String :=
  "\n        @media print \x7b\n            h1, h2, h3 \x7b\n                page-break-before: auto;\n            \x7d\n            pre, . code-block, figure, table, . mermaid-container \x7b\n                page-break-inside: avoid;\n            \x7d\n            hr \x7b\n                page-break-after: auto;\n            \x7d\n        \x7d\n        "

def shellF : String :=
  "\n       </style>\n    <style>\n        /* تنظیمات کلی صفحه */\n        body \x7b\n            font-family: system-ui, -apple-system, sans-serif;\n            line-height: 1.6;\n            margin: 5%;\n            max-width: max-content;\n            padding: 10px;\n            background-color: #ffffff;\n            color: #24292e;\n            direction: rtl;\n            text-align: right;\n        \x7d\n\n        h1, h2, h3 \x7b\n            border-bottom: 1px solid #eaecef;\n            padding-bottom: 0.3em;\n            margin-top: 2em;\n            margin-bottom: 1em;\n        \x7d\n\n        /* استایل بلوک کد */\n        .code-block \x7b\n            position: relative;\n            margin: 1.5em 0;\n            border: 1px solid #e1e4e8;\n            border-radius: 6px;\n            overflow: hidden;\n            background-color: #f6f8fa;\n        \x7d\n\n        .code-header \x7b\n            display: flex;\n            direction: ltr;\n            justify-content: space-between;\n            align-items: center;\n            padding: 0.6rem 1rem;\n            background-color: #f1f3f5;\n            border-bottom: 1px solid #e1e4e8;\n            font-size: 0.9em;\n        \x7d\n\n        .language \x7b\n            color: #586069;\n            font-weight: 500;\n        \x7d\n\n        .copy-button \x7b\n            padding: 0.3rem 0.7rem;\n            font-size: 0.85em;\n            color: #24292e;\n            background: transparent;\n            border: 1px solid #d1d5da;\n            border-radius: 4px;\n            cursor: pointer;\n            transition: all 0.2s;\n        \x7d\n\n        .copy-button:hover \x7b\n            background-color: #e9ecef;\n            border-color: #c1c4c8;\n        \x7d\n\n        pre \x7b\n            margin: 0;\n            padding: 1rem;\n            overflow-x: auto;\n            direction: ltr;\n            text-align: left;\n        \x7d\n\n        pre code \x7b\n            font-family: SFMono-Regular, Consolas, \x27Liberation Mono\x27, Menlo, monospace;\n            font-size: 0.95em;\n        \x7d\n\n        /* اطمینان از خوانایی در RTL */\n        code \x7b\n            direction: ltr;\n            display: block;\n        \x7d\n        img \x7b display: block; max-width: fit-content; height: auto; margin-left: auto; margin-right: auto;\n        max-width: 100%; box-sizing: content-box; \x7d\n        img.emoji \x7b height: 1em; width: 1em; margin: 0 .05em 0 .1em; vertical-align: -0.1em; display: inline; \x7d\n         h1, h2, h3, h4, h5, h6 \x7b font-weight: 600; margin-top: 24px; margin-bottom: 16px; line-height: 1.25; \x7d \n         h1 \x7b font-size: 2em; border-bottom: 1px solid #eaecef; padding-bottom: 0.3em; margin-top: 0.67em 0; \x7d\n          h2 \x7b font-size: 1.5em; border-bottom: 1px solid #eaecef; padding-bottom: 0.3em; margin-top: 1.5em; \x7d\n           h3 \x7b font-size: 1.25em; margin-top: 1.25em; \x7d h4 \x7b font-size: 1em; margin-top: 1em; \x7d\n            a \x7b color: #0366d6; text-decoration: none; \x7d a:hover \x7b text-decoration: underline; \x7d\n             strong \x7b font-weight: 600; \x7d\n    </style> \n</head>\n<body>\n    "

def shellG : String :=
  "\n</body>\n</html>"

/-- Assembled diagram container, `src/helpers.ts` lines 64-68: the raw
block text is interpolated verbatim (no escaping) between the fixed
container text `mermaidPre` and `mermaidPost`. -/
def mermaidBlock (code : String) : String :=
  mermaidPre ++ code ++ mermaidPost

/-- Assembled highlighted code block, `src/helpers.ts` lines 76-89:
label shows `lang` (the original tag), the `code` element's class uses
`validLanguage` (the resolved tag), and the body is the highlighter's
output. -/
def codeBlockHtml (lang validLanguage highlightedCode : String) : String :=
  cbA ++ lang ++ cbB ++ validLanguage ++ cbC ++ highlightedCode ++ cbD

/-- Assembled fallback code block, `src/helpers.ts` lines 92-105 (the
`catch` branch): same visual shell, body is the raw block text exactly
as the conversion engine passed it (the renderer applies no escaping). -/
def fallbackBlock (lang code : String) : String :=
  fbA ++ lang ++ fbB ++ code ++ fbC

/-- Language-tag defaulting, `src/helpers.ts` line 60
(`const lang = language || 'plaintext'`): JavaScript `||` treats both
`undefined` and the empty string as falsy. -/
def langOf : Option String → String
  | some l => if l = "" then "plaintext" else l
  | none => "plaintext"

/-- The custom code-block renderer `renderer.code`, `src/helpers.ts`
lines 59-107, with the `try`/`catch` already resolved: `gl` models
`hljs.getLanguage` (registry membership) and `hl` models
`hljs.highlight(code, { language }).value`, which may throw
(`Except.error`).  On a highlighter error the `catch` branch emits the
fallback block. -/
def rendererCode (gl : String → Bool) (hl : String → String → Except String String)
    (code : String) (language : Option String) : String :=
  let lang := langOf language
  if lang = "mermaid" then
    mermaidBlock code
  else
    let validLanguage := if gl lang then lang else "plaintext"
    match hl code validLanguage with
    | Except.ok highlightedCode => codeBlockHtml lang validLanguage highlightedCode
    | Except.error _ => fallbackBlock lang code

/-- The same renderer in the exception monad: the body of the `try`
block propagates the highlighter's exception, and the `catch` branch
converts it back into a normal return.  An `Except.error` result would
mean the renderer let an exception escape. -/
def rendererCodeE (gl : String → Bool) (hl : String → String → Except String String)
    (code : String) (language : Option String) : Except String String :=
  let lang := langOf language
  if lang = "mermaid" then
    Except.ok (mermaidBlock code)
  else
    match
      (do
        let validLanguage := if gl lang then lang else "plaintext"
        let highlightedCode ← hl code validLanguage
        pure (codeBlockHtml lang validLanguage highlightedCode) : Except String String)
    with
    | Except.ok s => Except.ok s
    | Except.error _ => Except.ok (fallbackBlock lang code)

/-- Configuration passed to `DOMPurify.sanitize`, `src/helpers.ts`
lines 129-142. -/
structure PurifyConfig where
  useProfilesHtml : Bool
  addTags : List String
  addAttr : List String
deriving DecidableEq

/-- The sanitizer configuration object of `src/helpers.ts` lines
129-142, transcribed field by field. -/
def purifyCfg : PurifyConfig where
  useProfilesHtml := true
  addTags :=
    ["math", "semantics", "mrow", "mi", "mo", "mn", "msup", "sub", "sup", "annotation",
     "svg", "path", "rect", "g", "text", "tspan", "defs", "marker", "line",
     "polyline", "polygon", "circle", "ellipse", "foreignObject"]
  addAttr :=
    ["xmlns", "viewBox", "fill", "stroke", "stroke-width", "d", "x", "y",
     "width", "height", "rx", "ry", "id", "class", "transform", "cx", "cy",
     "r", "x1", "y1", "x2", "y2", "points", "font-family", "font-size",
     "text-anchor", "dominant-baseline", "style", "marker-start", "marker-end"]

/-- Options object passed to `twemoji.parse`, `src/helpers.ts` lines
145-149. -/
structure TwemojiConfig where
  folder : String
  ext : String
  base : String
deriving DecidableEq

/-- The emoji-postprocessor configuration of `src/helpers.ts` lines
145-149: SVG folder, `.svg` extension, fixed versioned remote base. -/
def twemojiCfg : TwemojiConfig where
  folder := "svg"
  ext := ".svg"
  base := "https://cdnjs.cloudflare.com/ajax/libs/twemoji/14.0.2/"

/-- The recognized `marked` options set at `src/helpers.ts` lines
109-121 (`ExtendedMarkedOptions`), including the installed custom
renderer and the `highlight` option function of lines 111-114. -/
structure MarkedConfig where
  renderer : String → Option String → String
  highlight : String → String → Except String String
  langPrefix : String
  gfm : Bool
  breaks : Bool
  smartLists : Bool
  smartypants : Bool
  xhtml : Bool

/-- External collaborators of the pipeline, supplied as parameters:
`getLanguage` and `highlight` model the `highlight.js` registry and
highlighter, `markedParse` models `marked.parse` under a given global
state (katex extension installed? current options), `sanitize` models
`DOMPurify.sanitize`, and `twemojiParse` models `twemoji.parse`.  None
of these is repository code; the repository only configures and calls
them. -/
structure Libs where
  getLanguage : String → Bool
  highlight : String → String → Except String String
  markedParse : Bool → MarkedConfig → String → String
  markedParseNoOptions : Bool → String → String
  sanitize : PurifyConfig → String → String
  twemojiParse : TwemojiConfig → String → String

/-- The options record built at `src/helpers.ts` lines 109-121 for a
given set of collaborators. -/
def markedConfigOf (L : Libs) : MarkedConfig where
  renderer := rendererCode L.getLanguage L.highlight
  highlight := fun code lang =>
    let language := if L.getLanguage lang then lang else "plaintext"
    L.highlight code language
  langPrefix := "hljs language-"
  gfm := true
  breaks := false
  smartLists := true
  smartypants := false
  xhtml := false

/-- Asset-base normalization, `src/helpers.ts` line 152:
`assetBase.replace(/\/$/, '')` deletes one `/` at the very end of the
string if present (the regex is anchored at end and not global), and
leaves the string unchanged otherwise. -/
def stripTrailingSlash (s : String) : String :=
  match s.data.getLast? with
  | some '/' => String.mk s.data.dropLast
  | _ => s

/-- The `vendor` local of `src/helpers.ts` line 152:
`assetBase ? assetBase.replace(/\/$/, '') : undefined`, where a missing
or empty `assetBase` is falsy. -/
def vendorOf : Option String → Option String
  | some s => if s = "" then none else some (stripTrailingSlash s)
  | none => none

/-- Highlight-theme stylesheet resolution, the interpolation of
`src/helpers.ts` line 160: `vendor ? vendor + path : cdn`, where an
empty `vendor` string is falsy. -/
def hlCssHref : Option String → String
  | some v =>
    if v = "" then "https://cdnjs.cloudflare.com/ajax/libs/highlight.js/11.8.0/styles/github-dark.min.css"
    else v ++ "/highlight/styles/github-dark.min.css"
  | none => "https://cdnjs.cloudflare.com/ajax/libs/highlight.js/11.8.0/styles/github-dark.min.css"

/-- Math stylesheet resolution, the interpolation of `src/helpers.ts`
line 161 (the remote fallback locator contains a space, exactly as in
the source). -/
def katexCssHref : Option String → String
  | some v =>
    if v = "" then "https://cdn.jsdelivr.net/npm/katex@0.16.9/dist/katex.min. css"
    else v ++ "/katex/katex.min.css"
  | none => "https://cdn.jsdelivr.net/npm/katex@0.16.9/dist/katex.min. css"

/-- Highlight runtime script resolution, the interpolation of
`src/helpers.ts` line 189. -/
def hljsScriptSrc : Option String → String
  | some v =>
    if v = "" then "https://cdnjs.cloudflare.com/ajax/libs/highlight.js/11.8.0/highlight.min.js"
    else v ++ "/highlight/highlight.min.js"
  | none => "https://cdnjs.cloudflare.com/ajax/libs/highlight.js/11.8.0/highlight.min.js"

/-- The full document template of `src/helpers.ts` lines 154-329: the
fixed shell pieces concatenated with the three resolved asset
locators, the print-media style block (PDF mode only), and the body
fragment. -/
def documentShell (vendor : Option String) (isForPdf : Bool) (htmlContent : String) : String :=
  shellA ++ hlCssHref vendor ++ shellB ++ katexCssHref vendor ++ shellC ++
    mermaidBootstrapScript ++ shellD ++ hljsScriptSrc vendor ++ shellE ++
    (if isForPdf then printMediaCss else "") ++ shellF ++ htmlContent ++ shellG

/-- The sanitized fragment produced by `src/helpers.ts` lines 126-142:
`DOMPurify.sanitize(marked.parse(markdownContent), purifyCfg)`, parsing
under the options installed at lines 123-124 (katex extension in use,
options freshly set). -/
def sanitizedFragment (L : Libs) (markdownContent : String) : String :=
  L.sanitize purifyCfg (L.markedParse true (markedConfigOf L) markdownContent)

/-- The render-pipeline entry point `getHtmlForWebview`,
`src/helpers.ts` lines 55-330: parse, sanitize, emoji-postprocess (PDF
mode only), resolve the asset base, assemble the document. -/
def getHtmlForWebview (L : Libs) (markdownContent : String) (isForPdf : Bool)
    (assetBase : Option String) : String :=
  let htmlParsed := L.markedParse true (markedConfigOf L) markdownContent
  let htmlSanitized := L.sanitize purifyCfg htmlParsed
  let htmlContent := if isForPdf then L.twemojiParse twemojiCfg htmlSanitized else htmlSanitized
  let vendor := vendorOf assetBase
  documentShell vendor isForPdf htmlContent

/-- The pipeline in the exception monad: `parseE` is `marked.parse`
driving the renderer in its `Except` form, so that an exception thrown
inside the conversion (in particular by the installed code-block
renderer) surfaces as `Except.error`. -/
def getHtmlForWebviewE
    (parseE : (String → Option String → Except String String) → String → Except String String)
    (L : Libs) (markdownContent : String) (isForPdf : Bool)
    (assetBase : Option String) : Except String String := do
  let htmlParsed ← parseE (rendererCodeE L.getLanguage L.highlight) markdownContent
  let htmlSanitized := L.sanitize purifyCfg htmlParsed
  let htmlContent := if isForPdf then L.twemojiParse twemojiCfg htmlSanitized else htmlSanitized
  pure (documentShell (vendorOf assetBase) isForPdf htmlContent)

/-- State of the module-global `marked` singleton that
`getHtmlForWebview` mutates: whether the katex extension has been
installed (`marked.use(markedKatex())`, line 123, installation only
ever adds it) and the currently set options
(`marked.setOptions(markedOptions)`, line 124; `none` means no options
were ever set). -/
structure MarkedGlobal where
  katexInstalled : Bool
  config : Option MarkedConfig

/-- Parsing under the current global `marked` state. -/
def markedParseGlobal (L : Libs) (g : MarkedGlobal) (markdownContent : String) : String :=
  match g.config with
  | some c => L.markedParse g.katexInstalled c markdownContent
  | none => L.markedParseNoOptions g.katexInstalled markdownContent

/-- State-passing version of `getHtmlForWebview`, making the mutation
of the `marked` global explicit: line 123 installs the katex extension,
line 124 overwrites the options (including the renderer), and only then
does line 126 parse.  Returns the document together with the global
state the call leaves behind. -/
def getHtmlForWebviewS (L : Libs) (g : MarkedGlobal) (markdownContent : String)
    (isForPdf : Bool) (assetBase : Option String) : String × MarkedGlobal :=
  let g1 : MarkedGlobal := ⟨true, g.config⟩
  let g2 : MarkedGlobal := ⟨g1.katexInstalled, some (markedConfigOf L)⟩
  let htmlParsed := markedParseGlobal L g2 markdownContent
  let htmlSanitized := L.sanitize purifyCfg htmlParsed
  let htmlContent := if isForPdf then L.twemojiParse twemojiCfg htmlSanitized else htmlSanitized
  (documentShell (vendorOf assetBase) isForPdf htmlContent, g2)

/-- Events observable from the diagram bootstrap script's `load`
handler, `src/helpers.ts` lines 175-186. -/
inductive JsEvent where
  | runDiagrams
  | logError (msg : String)
  | setMermaidReady
deriving DecidableEq

/-- Control flow of the `load` handler of the embedded module script,
`src/helpers.ts` lines 175-186: `await mermaid.run(...)` (its outcome
is the `Except` argument: `ok` when zero diagrams are present or all
render, `error` when rendering rejects), then the `try` tail sets
`window.mermaidReady = true`; on rejection the `catch` logs and sets
the same flag. -/
def onLoadTrace : Except String Unit → List JsEvent
  | Except.ok _ => [JsEvent.runDiagrams, JsEvent.setMermaidReady]
  | Except.error e => [JsEvent.runDiagrams, JsEvent.logError e, JsEvent.setMermaidReady]

/-- Test for the flag-setting event. -/
def isSetReady : JsEvent → Bool
  | JsEvent.setMermaidReady => true
  | _ => false

/-- Number of times a trace sets the completion flag. -/
def countSetReady (t : List JsEvent) : Nat :=
  t.countP isSetReady

/-- Value of `window.mermaidReady` after replaying a trace over an
initial flag value (the flag starts unset on document load). -/
def runFlag (t : List JsEvent) (init : Bool) : Bool :=
  t.foldl (fun fl e => match e with | JsEvent.setMermaidReady => true | _ => fl) init

/-- Tags the specification's sanitizer allow-list names as math-markup
vocabulary, in the spec's own order: formula container, semantics, row,
identifier, operator, number, superscript/subscript, annotation,
rendered as the concrete tag names `math`, `semantics`, `mrow`, `mi`,
`mo`, `mn`, `msup`/`sub`/`sup`, `annotation`.  This definition follows
the specification's words (for comparison against `purifyCfg`), not the
source. -/
def specMathTags : List String :=
  ["math", "semantics", "mrow", "mi", "mo", "mn", "msup", "sub", "sup", "annotation"]

/-- Tags the specification names as vector-diagram structural
vocabulary, in the spec's own order: svg, path, rect, group, text,
text-span, definitions, marker, line, polyline, polygon, circle,
ellipse, foreign-object.  Spec-side definition, for comparison against
`purifyCfg`. -/
def specVectorTags : List String :=
  ["svg", "path", "rect", "g", "text", "tspan", "defs", "marker", "line",
   "polyline", "polygon", "circle", "ellipse", "foreignObject"]

/-- Attributes the specification names as vector-diagram geometry and
style vocabulary, in the spec's own order: namespace, viewBox, fill,
stroke, stroke-width, path-data, coordinates, dimensions, corner-radii,
id, class, transform, center/radius, line endpoints, points, font
properties, text-anchor, baseline, inline style, marker references.
Spec-side definition, for comparison against `purifyCfg`. -/
def specVectorAttrs : List String :=
  ["xmlns", "viewBox", "fill", "stroke", "stroke-width", "d", "x", "y",
   "width", "height", "rx", "ry", "id", "class", "transform", "cx", "cy",
   "r", "x1", "y1", "x2", "y2", "points", "font-family", "font-size",
   "text-anchor", "dominant-baseline", "style", "marker-start", "marker-end"]

/-- Registry in which no language is recognized (in particular,
`highlight.js` has no `mermaid` grammar). -/
def glNone : String → Bool := fun _ => false

/-- Registry recognizing exactly `python`. -/
def glPython : String → Bool := fun l => l == "python"

/-- Highlighter that succeeds and returns its input unchanged. -/
def hlOkId : String → String → Except String String := fun c _ => Except.ok c

/-- Highlighter that always throws. -/
def hlFail : String → String → Except String String := fun _ _ => Except.error "boom"

/-- Collaborator instance in which every external function is the
identity-like trivial one; used to instantiate universally quantified
theorems at concrete inputs. -/
def libsId : Libs where
  getLanguage := glNone
  highlight := hlOkId
  markedParse := fun _ _ md => md
  markedParseNoOptions := fun _ md => md
  sanitize := fun _ s => s
  twemojiParse := fun _ s => s

/-- Collaborator instance whose conversion engine renders its whole
input as one fenced block tagged `mermaid` through the installed
renderer, and whose sanitizer passes the result through. -/
def libsMermaid : Libs where
  getLanguage := glNone
  highlight := hlOkId
  markedParse := fun _ cfg md => cfg.renderer md (some "mermaid")
  markedParseNoOptions := fun _ md => md
  sanitize := fun _ s => s
  twemojiParse := fun _ s => s

/-- Collaborator instance with an always-throwing highlighter. -/
def libsFail : Libs where
  getLanguage := glNone
  highlight := hlFail
  markedParse := fun _ cfg md => cfg.renderer md (some "python")
  markedParseNoOptions := fun _ md => md
  sanitize := fun _ s => s
  twemojiParse := fun _ s => s

/-! Shared helper lemmas. -/

/-- The renderer in the exception monad always returns normally, and
agrees with its pure form: the `catch` of `src/helpers.ts` lines 90-106
converts every highlighter exception into the fallback block. -/
theorem rendererCodeE_ok (gl : String → Bool) (hl : String → String → Except String String)
    (code : String) (language : Option String) :
    rendererCodeE gl hl code language = Except.ok (rendererCode gl hl code language) := by
  unfold rendererCodeE rendererCode
  by_cases h : langOf language = "mermaid" <;> simp [h]
  cases hl code (if gl (langOf language) then langOf language else "plaintext") <;> simp [Except.bind]

/-- Unfolding of the assembled document into its template pieces. -/
theorem getHtmlForWebview_decomposition (L : Libs) (md : String) (b : Bool) (ab : Option String) :
    getHtmlForWebview L md b ab =
      shellA ++ hlCssHref (vendorOf ab) ++ shellB ++ katexCssHref (vendorOf ab) ++ shellC ++
        mermaidBootstrapScript ++ shellD ++ hljsScriptSrc (vendorOf ab) ++ shellE ++
        (if b then printMediaCss else "") ++ shellF ++
        (if b then L.twemojiParse twemojiCfg (sanitizedFragment L md) else sanitizedFragment L md) ++
        shellG := by
  cases b <;> rfl

/-- Dropping one final `/` from a string that ends in two. -/
theorem stripTrailingSlash_doubleSlash (t : String) :
    stripTrailingSlash (t ++ "//") = t ++ "/" := by
  have hdata : (t ++ "//").data = (t.data ++ ['/']) ++ ['/'] := by
    rw [String.data_append]; simp [List.append_assoc]
  unfold stripTrailingSlash
  rw [hdata, List.getLast?_concat, List.dropLast_concat]
  simp only []
  apply String.ext
  simp [String.data_append]

/-- A string with characters appended on the right is nonempty. -/
theorem append_slash_ne_empty (t : String) (c : Char) (r : String) :
    t ++ ⟨c :: r.data⟩ ≠ "" := by
  intro h
  have := congrArg String.data h
  rw [String.data_append] at this
  simp at this

/-! Claim theorems. -/

/-- C1: for every code block and language tag, if the syntax
highlighter throws during rendering, the code-block renderer does not
propagate the error and instead returns the fallback block with the
same visual shell (language label and copy button) whose content is
the block text exactly as the conversion engine supplied it; the
renderer never returns exceptionally, so highlighting failures cannot
make the overall Markdown-to-HTML pipeline throw (third conjunct: if
the conversion engine only throws when the installed renderer does,
the whole pipeline returns normally). -/
theorem renderer_recovers_highlight_failure :
    (∀ (gl : String → Bool) (hl : String → String → Except String String)
       (code : String) (language : Option String),
      rendererCodeE gl hl code language = Except.ok (rendererCode gl hl code language))
  ∧ (∀ (gl : String → Bool) (hl : String → String → Except String String)
       (code : String) (language : Option String) (e : String),
      langOf language ≠ "mermaid" →
      hl code (if gl (langOf language) then langOf language else "plaintext") = Except.error e →
      rendererCodeE gl hl code language = Except.ok (fallbackBlock (langOf language) code)
      ∧ fallbackBlock (langOf language) code = fbA ++ langOf language ++ fbB ++ code ++ fbC)
  ∧ (∀ (parseE : (String → Option String → Except String String) → String → Except String String)
       (L : Libs) (md : String) (b : Bool) (ab : Option String),
      (∀ r m, (∀ c lg, ∃ s, r c lg = Except.ok s) → ∃ s, parseE r m = Except.ok s) →
      ∃ s, getHtmlForWebviewE parseE L md b ab = Except.ok s) := by
  refine ⟨rendererCodeE_ok, ?_, ?_⟩
  · intro gl hl code language e h0 h1
    refine ⟨?_, rfl⟩
    unfold rendererCodeE
    simp [h0, h1, Except.bind]
  · intro parseE L md b ab hp
    obtain ⟨s, hs⟩ := hp (rendererCodeE L.getLanguage L.highlight) md
      (fun c lg => ⟨rendererCode L.getLanguage L.highlight c lg, rendererCodeE_ok _ _ _ _⟩)
    exact ⟨_, by rw [getHtmlForWebviewE, hs]; rfl⟩

/-- C1 witness: with an always-throwing highlighter and a registry
recognizing nothing, the renderer on a `python`-tagged block returns
the fallback block normally, and the pipeline driven by a conversion
engine that renders one such block returns normally. -/
theorem renderer_recovers_highlight_failure_instance :
    rendererCodeE glNone hlFail "print(1)" (some "python")
        = Except.ok (fallbackBlock "python" "print(1)")
    ∧ ∃ s, getHtmlForWebviewE (fun r m => r m (some "python")) libsFail "print(1)" false none
        = Except.ok s := by
  constructor
  · exact (renderer_recovers_highlight_failure.2.1 glNone hlFail "print(1)" (some "python") "boom"
      (by decide) rfl).1
  · exact renderer_recovers_highlight_failure.2.2 (fun r m => r m (some "python")) libsFail
      "print(1)" false none (fun r m h => h m (some "python"))

/-- C2: a fenced block whose tag is exactly `mermaid` is rendered as
its raw text, verbatim and unescaped, between the fixed
`<div class="mermaid-container"><pre class="mermaid">` container
pieces; and whenever the sanitized (and, in PDF mode, postprocessed)
fragment contains such a container, the assembled document returned by
`getHtmlForWebview` contains it verbatim, because the body is inserted
into the shell unchanged. -/
theorem mermaid_block_verbatim_in_document :
    (∀ (gl : String → Bool) (hl : String → String → Except String String) (code : String),
      rendererCode gl hl code (some "mermaid") = mermaidPre ++ code ++ mermaidPost)
  ∧ (∀ (L : Libs) (md : String) (b : Bool) (ab : Option String) (pre post code : String),
      (if b then L.twemojiParse twemojiCfg (sanitizedFragment L md) else sanitizedFragment L md)
        = pre ++ (mermaidPre ++ code ++ mermaidPost) ++ post →
      ∃ p q, getHtmlForWebview L md b ab = p ++ (mermaidPre ++ code ++ mermaidPost) ++ q) := by
  constructor
  · intro gl hl code
    unfold rendererCode
    simp [langOf, mermaidBlock]
  · intro L md b ab pre post code h
    refine ⟨shellA ++ hlCssHref (vendorOf ab) ++ shellB ++ katexCssHref (vendorOf ab) ++ shellC ++
        mermaidBootstrapScript ++ shellD ++ hljsScriptSrc (vendorOf ab) ++ shellE ++
        (if b then printMediaCss else "") ++ shellF ++ pre, post ++ shellG, ?_⟩
    rw [getHtmlForWebview_decomposition, h]
    simp only [String.append_assoc]

/-- C2 witness: a conversion engine that feeds its input through the
installed renderer as a `mermaid` block, followed by a
pass-through sanitizer, yields a document containing the raw text
`graph TD` inside the diagram container. -/
theorem mermaid_block_verbatim_in_document_instance :
    ∃ p q, getHtmlForWebview libsMermaid "graph TD" false none
        = p ++ (mermaidPre ++ "graph TD" ++ mermaidPost) ++ q :=
  mermaid_block_verbatim_in_document.2 libsMermaid "graph TD" false none "" "" "graph TD"
    (by simp [sanitizedFragment, libsMermaid, markedConfigOf, rendererCode, langOf, mermaidBlock,
      String.empty_append, String.append_empty])

/-- C3: with the module-global `marked` singleton modelled as explicit
state, a render call's result does not depend on the incoming global
state (the call reinstalls the katex extension and overwrites the
options, renderer included, before parsing), it coincides with the
pure pipeline, and the state left behind is likewise
history-independent — so calls with identical arguments return
identical documents no matter what prior calls occurred. -/
theorem getHtmlForWebview_stateless_across_calls :
    ∀ (L : Libs) (g g' : MarkedGlobal) (md : String) (b : Bool) (ab : Option String),
      (getHtmlForWebviewS L g md b ab).1 = (getHtmlForWebviewS L g' md b ab).1
      ∧ (getHtmlForWebviewS L g md b ab).1 = getHtmlForWebview L md b ab
      ∧ (getHtmlForWebviewS L g md b ab).2 = (getHtmlForWebviewS L g' md b ab).2 :=
  fun _ _ _ _ _ _ => ⟨rfl, rfl, rfl⟩

/-- C4: with asset base `file:///tmp/vendor/` the three asset locators
resolve to the local vendored paths with the trailing slash stripped
(no double slash); with no asset base they resolve to the fixed remote
fallback locators (the math stylesheet fallback contains a stray space
exactly as in the source); and the assembled document interpolates
precisely these three resolved locators, each independently. -/
theorem asset_base_dual_resolution :
    hlCssHref (vendorOf (some "file:///tmp/vendor/"))
        = "file:///tmp/vendor/highlight/styles/github-dark.min.css"
  ∧ katexCssHref (vendorOf (some "file:///tmp/vendor/"))
        = "file:///tmp/vendor/katex/katex.min.css"
  ∧ hljsScriptSrc (vendorOf (some "file:///tmp/vendor/"))
        = "file:///tmp/vendor/highlight/highlight.min.js"
  ∧ hlCssHref (vendorOf none)
        = "https://cdnjs.cloudflare.com/ajax/libs/highlight.js/11.8.0/styles/github-dark.min.css"
  ∧ katexCssHref (vendorOf none)
        = "https://cdn.jsdelivr.net/npm/katex@0.16.9/dist/katex.min. css"
  ∧ hljsScriptSrc (vendorOf none)
        = "https://cdnjs.cloudflare.com/ajax/libs/highlight.js/11.8.0/highlight.min.js"
  ∧ ∀ (L : Libs) (md : String) (b : Bool) (ab : Option String),
      getHtmlForWebview L md b ab =
        shellA ++ hlCssHref (vendorOf ab) ++ shellB ++ katexCssHref (vendorOf ab) ++ shellC ++
          mermaidBootstrapScript ++ shellD ++ hljsScriptSrc (vendorOf ab) ++ shellE ++
          (if b then printMediaCss else "") ++ shellF ++
          (if b then L.twemojiParse twemojiCfg (sanitizedFragment L md)
           else sanitizedFragment L md) ++ shellG :=
  ⟨by decide, by decide, by decide, rfl, rfl, rfl, getHtmlForWebview_decomposition⟩

/-- C5: the emoji postprocessor runs exactly when `isForPdf` is true:
in non-PDF mode the sanitized fragment is inserted into the document
body untouched; in PDF mode the body is `twemoji.parse` of the
fragment under the fixed configuration (SVG folder, `.svg` extension,
fixed versioned remote base); and if the postprocessor leaves the
fragment unchanged (as it does on text free of emoji glyphs), the PDF
document's body equals the unprocessed fragment. -/
theorem emoji_postprocessing_only_for_pdf :
    ∀ (L : Libs) (md : String) (ab : Option String),
      getHtmlForWebview L md false ab = documentShell (vendorOf ab) false (sanitizedFragment L md)
      ∧ getHtmlForWebview L md true ab
          = documentShell (vendorOf ab) true (L.twemojiParse twemojiCfg (sanitizedFragment L md))
      ∧ twemojiCfg = ⟨"svg", ".svg", "https://cdnjs.cloudflare.com/ajax/libs/twemoji/14.0.2/"⟩
      ∧ (L.twemojiParse twemojiCfg (sanitizedFragment L md) = sanitizedFragment L md →
          getHtmlForWebview L md true ab = documentShell (vendorOf ab) true (sanitizedFragment L md)) := by
  intro L md ab
  refine ⟨rfl, rfl, rfl, fun h => ?_⟩
  have h2 : getHtmlForWebview L md true ab
      = documentShell (vendorOf ab) true (L.twemojiParse twemojiCfg (sanitizedFragment L md)) := rfl
  rw [h2, h]

/-- C5 witness: with a pass-through postprocessor the PDF-mode
document's body is the sanitized fragment itself. -/
theorem emoji_postprocessing_only_for_pdf_instance :
    getHtmlForWebview libsId "hello" true none
      = documentShell none true (sanitizedFragment libsId "hello") :=
  (emoji_postprocessing_only_for_pdf libsId "hello" none).2.2.2 rfl

/-- C6 counterexample: the tag `mermaid` is unrecognized by the
highlighter registry (highlight.js ships no `mermaid` grammar, modelled
by `glNone`), yet the renderer does not resolve it to `plaintext` and
does not take the plaintext highlighting path: it emits the diagram
container, which is neither the plaintext-highlighted block nor the
fallback block (and it does so whatever the registry answers). -/
theorem mermaid_tag_escapes_plaintext_fallback :
    rendererCode glNone hlOkId "graph TD" (some "mermaid") = mermaidPre ++ "graph TD" ++ mermaidPost
  ∧ rendererCode glNone hlOkId "graph TD" (some "mermaid")
      ≠ codeBlockHtml "mermaid" "plaintext" "graph TD"
  ∧ rendererCode glNone hlOkId "graph TD" (some "mermaid")
      ≠ fallbackBlock "mermaid" "graph TD"
  ∧ rendererCode (fun _ => true) hlOkId "graph TD" (some "mermaid")
      = mermaidPre ++ "graph TD" ++ mermaidPost := by
  refine ⟨?_, by decide, by decide, ?_⟩ <;>
    (unfold rendererCode; simp [langOf, mermaidBlock])

/-- C6 (amended): for every fenced block whose tag is present,
recognized, and not the diagram keyword `mermaid`, the highlighted
block's visible language label is the original tag text (the label
slot of the shell receives `lang` itself, the class slot the resolved
tag); and for every block whose tag is absent, or unrecognized and not
`mermaid`, the renderer resolves the tag to `plaintext`, highlights on
the plaintext path (falling back to the raw block on a highlighter
error) and never returns exceptionally. -/
theorem language_label_and_plaintext_fallback :
    ∀ (gl : String → Bool) (hl : String → String → Except String String) (code : String),
      (∀ l s : String, l ≠ "" → l ≠ "mermaid" → gl l = true → hl code l = Except.ok s →
        rendererCode gl hl code (some l) = cbA ++ l ++ cbB ++ l ++ cbC ++ s ++ cbD)
      ∧ (∀ l : String, l ≠ "" → l ≠ "mermaid" → gl l = false →
          rendererCode gl hl code (some l) = (match hl code "plaintext" with
            | Except.ok s => codeBlockHtml l "plaintext" s
            | Except.error _ => fallbackBlock l code)
          ∧ rendererCodeE gl hl code (some l) = Except.ok (rendererCode gl hl code (some l)))
      ∧ rendererCode gl hl code none = (match hl code "plaintext" with
            | Except.ok s => codeBlockHtml "plaintext" "plaintext" s
            | Except.error _ => fallbackBlock "plaintext" code)
      ∧ rendererCodeE gl hl code none = Except.ok (rendererCode gl hl code none) := by
  intro gl hl code
  refine ⟨?_, ?_, ?_, rendererCodeE_ok _ _ _ _⟩
  · intro l s h0 h1 h2 h3
    unfold rendererCode
    simp [langOf, h0, h1, h2, h3, codeBlockHtml]
  · intro l h0 h1 h2
    refine ⟨?_, rendererCodeE_ok _ _ _ _⟩
    unfold rendererCode
    simp [langOf, h0, h1, h2]
  · unfold rendererCode
    simp [langOf, ite_self]

/-- C6 witness: a recognized `python` block shows the label `python`,
and an unrecognized `foo` block is highlighted as `plaintext` while its
label still reads `foo`. -/
theorem language_label_and_plaintext_fallback_instance :
    rendererCode glPython hlOkId "print(1)" (some "python")
        = cbA ++ "python" ++ cbB ++ "python" ++ cbC ++ "print(1)" ++ cbD
    ∧ rendererCode glNone hlOkId "x" (some "foo") = codeBlockHtml "foo" "plaintext" "x" := by
  constructor
  · exact (language_label_and_plaintext_fallback glPython hlOkId "print(1)").1 "python" "print(1)"
      (by decide) (by decide) (by decide) rfl
  · exact ((language_label_and_plaintext_fallback glNone hlOkId "x").2.1 "foo"
      (by decide) (by decide) rfl).1

/-- C7: for a fragment the emoji postprocessor leaves unchanged (in
particular any fragment free of emoji glyphs), the PDF-mode document
and the non-PDF document share a common prefix and suffix and differ
exactly by the print-media style block (page-break-avoidance rules)
inserted between them. -/
theorem print_media_block_only_for_pdf :
    ∀ (L : Libs) (md : String) (ab : Option String),
      L.twemojiParse twemojiCfg (sanitizedFragment L md) = sanitizedFragment L md →
      ∃ P S, getHtmlForWebview L md true ab = P ++ (printMediaCss ++ S)
           ∧ getHtmlForWebview L md false ab = P ++ S := by
  intro L md ab h
  refine ⟨shellA ++ hlCssHref (vendorOf ab) ++ shellB ++ katexCssHref (vendorOf ab) ++ shellC ++
      mermaidBootstrapScript ++ shellD ++ hljsScriptSrc (vendorOf ab) ++ shellE,
      shellF ++ sanitizedFragment L md ++ shellG, ?_, ?_⟩
  · rw [getHtmlForWebview_decomposition, if_pos rfl, if_pos rfl, h]
    simp only [String.append_assoc]
  · rw [getHtmlForWebview_decomposition]
    simp only [if_neg, String.append_assoc, String.empty_append, String.append_empty,
      Bool.false_eq_true, ite_false]

/-- C7 witness: with a pass-through postprocessor, the two documents
for the input `hello` differ exactly by the print-media style block. -/
theorem print_media_block_only_for_pdf_instance :
    ∃ P S, getHtmlForWebview libsId "hello" true none = P ++ (printMediaCss ++ S)
         ∧ getHtmlForWebview libsId "hello" false none = P ++ S :=
  print_media_block_only_for_pdf libsId "hello" none rfl

/-- C8: the bootstrap script's `load` handler sets the page-global
completion flag `window.mermaidReady` exactly once whatever the
outcome of the asynchronous diagram rendering — once on the success
path (covering both zero diagrams and all diagrams succeeding, where
`mermaid.run` resolves) and once on the failure path (where it
rejects, the error is logged and the `catch` still sets the flag) —
after which the flag reads true; and every assembled document embeds
this bootstrap script. -/
theorem mermaid_ready_flag_set_once :
    (∀ r : Except String Unit, countSetReady (onLoadTrace r) = 1)
  ∧ (∀ r : Except String Unit, runFlag (onLoadTrace r) false = true)
  ∧ onLoadTrace (Except.ok ()) = [JsEvent.runDiagrams, JsEvent.setMermaidReady]
  ∧ (∀ e : String,
      onLoadTrace (Except.error e) = [JsEvent.runDiagrams, JsEvent.logError e, JsEvent.setMermaidReady])
  ∧ (∀ (L : Libs) (md : String) (b : Bool) (ab : Option String),
      ∃ p q, getHtmlForWebview L md b ab = p ++ (mermaidBootstrapScript ++ q)) := by
  refine ⟨fun r => by cases r <;> rfl, fun r => by cases r <;> rfl, rfl, fun e => rfl, ?_⟩
  intro L md b ab
  refine ⟨shellA ++ hlCssHref (vendorOf ab) ++ shellB ++ katexCssHref (vendorOf ab) ++ shellC,
      shellD ++ hljsScriptSrc (vendorOf ab) ++ shellE ++ (if b then printMediaCss else "") ++
        shellF ++ (if b then L.twemojiParse twemojiCfg (sanitizedFragment L md)
          else sanitizedFragment L md) ++ shellG, ?_⟩
  rw [getHtmlForWebview_decomposition]
  simp only [String.append_assoc]

/-- C9: the sanitizer call extends the default safe-HTML profile
(`USE_PROFILES: html`) with exactly the allow-listed vocabulary the
specification enumerates: the math-markup structural tags followed by
the vector-diagram structural tags, and the vector-diagram
geometry/style attributes; and the pipeline sanitizes the parsed HTML
with precisely this configuration. -/
theorem sanitizer_allowlist_matches_spec :
    purifyCfg.useProfilesHtml = true
  ∧ purifyCfg.addTags = specMathTags ++ specVectorTags
  ∧ purifyCfg.addAttr = specVectorAttrs
  ∧ ∀ (L : Libs) (md : String),
      sanitizedFragment L md = L.sanitize purifyCfg (L.markedParse true (markedConfigOf L) md) :=
  ⟨rfl, by decide, by decide, fun _ _ => rfl⟩

/-- C10: asset-base normalization strips at most one trailing slash:
for every asset base ending in two slashes the normalized base still
ends in one, so each of the three resolved asset locators contains a
double slash between the base and the asset path. -/
theorem strip_at_most_one_trailing_slash :
    ∀ t : String,
      stripTrailingSlash (t ++ "//") = t ++ "/"
      ∧ hlCssHref (vendorOf (some (t ++ "//"))) = t ++ "//highlight/styles/github-dark.min.css"
      ∧ katexCssHref (vendorOf (some (t ++ "//"))) = t ++ "//katex/katex.min.css"
      ∧ hljsScriptSrc (vendorOf (some (t ++ "//"))) = t ++ "//highlight/highlight.min.js" := by
  intro t
  have h1 : (t ++ "//") ≠ "" := append_slash_ne_empty t '/' "/"
  have h2 : (t ++ "/") ≠ "" := append_slash_ne_empty t '/' ""
  refine ⟨stripTrailingSlash_doubleSlash t, ?_, ?_, ?_⟩ <;>
    · rw [vendorOf, if_neg h1, stripTrailingSlash_doubleSlash]
      first
        | rw [hlCssHref, if_neg h2, String.append_assoc]
        | rw [katexCssHref, if_neg h2, String.append_assoc]
        | rw [hljsScriptSrc, if_neg h2, String.append_assoc]
      rfl
